import Mathlib

/-!
Shallow embedding of the combat-entity layer of the Adventure 2D space
shooter: the source files `projectiles.py` and `ship.py`.

Modelling conventions:
* Python floats are modelled as real numbers, Python ints as integers.
* A method that mutates `self` becomes a function from the object state to a
  new object state.
* A code path that raises a Python exception (ZeroDivisionError from dividing
  a pygame vector by a zero magnitude, AttributeError from dereferencing an
  absent target reference) is modelled by `Except.error`.
* The physics base classes (`PhysicalObject`, `Disk` from `physics.py`) are
  not part of the given sources; the definitions that stand in for them are
  modelled from the spec and are marked as such in their doc comments.
* The two calls into the random module inside `BulletEnemy.step` are
  modelled by an explicit oracle (`Rng`) holding the values the random
  number generator produces for this tick.
-/

namespace Adventure

/-- 2D vector with real components, standing in for the external pygame
`Vector2` primitive. -/
@[ext]
structure Vec2 where
  x : ℝ
  y : ℝ

instance : Add Vec2 := ⟨fun a b => ⟨a.x + b.x, a.y + b.y⟩⟩

instance : Sub Vec2 := ⟨fun a b => ⟨a.x - b.x, a.y - b.y⟩⟩

instance : Neg Vec2 := ⟨fun a => ⟨-a.x, -a.y⟩⟩

instance : SMul ℝ Vec2 := ⟨fun c a => ⟨c * a.x, c * a.y⟩⟩

@[simp]
theorem Vec2.add_def (a b : Vec2) : a + b = ⟨a.x + b.x, a.y + b.y⟩ := rfl

@[simp]
theorem Vec2.sub_def (a b : Vec2) : a - b = ⟨a.x - b.x, a.y - b.y⟩ := rfl

@[simp]
theorem Vec2.neg_def (a : Vec2) : -a = ⟨-a.x, -a.y⟩ := rfl

@[simp]
theorem Vec2.smul_def (c : ℝ) (a : Vec2) : c • a = ⟨c * a.x, c * a.y⟩ := rfl

/-- pygame `Vector2.magnitude_squared()`. -/
def Vec2.magnitude_squared (v : Vec2) : ℝ := v.x * v.x + v.y * v.y

/-- pygame `Vector2.magnitude()`. -/
noncomputable def Vec2.magnitude (v : Vec2) : ℝ :=
  Real.sqrt (v.x * v.x + v.y * v.y)

/-- pygame `Vector2` division by a scalar (componentwise). -/
noncomputable def Vec2.div (v : Vec2) (c : ℝ) : Vec2 := ⟨v.x / c, v.y / c⟩

/-- pygame `Vector2.from_polar((r, angle))` with the angle in degrees. -/
noncomputable def Vec2.fromPolar (r angle : ℝ) : Vec2 :=
  ⟨r * Real.cos (angle * Real.pi / 180), r * Real.sin (angle * Real.pi / 180)⟩

/-- RGBA color, standing in for the external pygame `Color`. -/
structure Color where
  r : ℕ
  g : ℕ
  b : ℕ
  a : ℕ
deriving DecidableEq

/-- pygame `Color("black")`. -/
def Color.black : Color := ⟨0, 0, 0, 255⟩

/-- pygame `Color("lime")`. -/
def Color.lime : Color := ⟨0, 255, 0, 255⟩

/-- Constant `BULLET_SPEED = 300` from `ship.py`. -/
def BULLET_SPEED : ℝ := 300

/-- Constant `HEAD_LENGTH = 3` from `ship.py` (relative to radius). -/
def HEAD_LENGTH : ℝ := 3

/-- Constant `ENEMY_SHOOT_RANGE = 400` from `ship.py`. -/
def ENEMY_SHOOT_RANGE : ℝ := 400

/-- Constant `DAMAGE_INDICATOR_TIME = 0.75` from `ship.py`. -/
def DAMAGE_INDICATOR_TIME : ℝ := 0.75

/-- Constant `SPEED = 0.5` from `ship.py`. -/
def SPEED : ℝ := 0.5

/-- State of a `Bullet` from `projectiles.py` (its `PhysicalObject` base
contributes `pos`, `vel` and `mass`). -/
structure Bullet where
  pos : Vec2
  vel : Vec2
  mass : ℝ
  color : Color

/-- `Bullet.__init__(pos, vel, color)`: the body forwards `pos`, `vel` and
mass `1.0` to the `PhysicalObject` base and then assigns
`self.color = Color("black")` — the received `color` argument is ignored. -/
def Bullet.init (pos vel : Vec2) (color : Color) : Bullet :=
  { pos := pos, vel := vel, mass := 1.0, color := Color.black }

/-- Modelled from the spec: `PhysicalObject.step` from the absent
`physics.py` advances position kinematically, `position += velocity * dt`
(spec section 4.1 states this for projectiles explicitly). -/
noncomputable def Bullet.step (b : Bullet) (dt : ℝ) : Bullet :=
  { b with pos := b.pos + dt • b.vel }

/-- State of a `Ship` from `ship.py`.  `pos`, `vel`, `radius`, `mass` and
`color` come from the `Disk` base (absent `physics.py`); the remaining
fields are assigned in `Ship.__init__`. -/
structure Ship where
  pos : Vec2
  vel : Vec2
  radius : ℝ
  mass : ℝ
  size : ℝ
  color : Color
  angle : ℝ
  health : ℝ
  projectiles : List Bullet
  gun_cooldown : ℝ
  has_trophy : Bool
  ammo : ℤ
  thrust : ℝ
  rotation_thrust : ℝ
  move_right : Bool
  move_left : Bool
  move_down : Bool
  move_up : Bool
  fuel_consumption_rate : ℝ
  fuel_rot_consumption_rate : ℝ
  damage_indicator_timer : ℝ

/-- Modelled from the spec: the mass the `Disk` base derives from density
and radius (spec section 6 only says the physics collaborator provides
`mass`; a disk of uniform density has mass `density * pi * radius ^ 2`).
No claim depends on the exact formula. -/
noncomputable def diskMass (density radius : ℝ) : ℝ :=
  density * Real.pi * radius ^ 2

/-- `Ship.__init__(pos, vel, density, size, color)`. -/
noncomputable def Ship.init (pos vel : Vec2) (density size : ℝ)
    (color : Color) : Ship :=
  { pos := pos
    vel := vel
    radius := size
    mass := diskMass density size
    size := size
    color := color
    angle := 270
    health := 10000
    projectiles := []
    gun_cooldown := 0
    has_trophy := false
    ammo := 1000
    thrust := 40 * diskMass density size
    rotation_thrust := 100
    move_right := false
    move_left := false
    move_down := false
    move_up := false
    fuel_consumption_rate := 0
    fuel_rot_consumption_rate := 0
    damage_indicator_timer := 0 }

/-- `Ship.get_faced_direction`: unit vector obtained from `self.angle` by
`direction.from_polar((1, self.angle))`. -/
noncomputable def Ship.get_faced_direction (s : Ship) : Vec2 :=
  Vec2.fromPolar 1 s.angle

/-- `Ship.shoot`: guarded by `gun_cooldown <= 0 and ammo > 0`; on success
appends one `Bullet` at `pos + forward * radius * HEAD_LENGTH` with
velocity `vel + forward * BULLET_SPEED`, sets `gun_cooldown = 0.5` and
decrements `ammo`. -/
noncomputable def Ship.shoot (s : Ship) : Ship :=
  if s.gun_cooldown ≤ 0 ∧ 0 < s.ammo then
    let forward := s.get_faced_direction
    let bullet_pos := s.pos + HEAD_LENGTH • (s.radius • forward)
    let bullet_vel := s.vel + BULLET_SPEED • forward
    { s with
      projectiles := s.projectiles ++ [Bullet.init bullet_pos bullet_vel s.color]
      gun_cooldown := 0.5
      ammo := s.ammo - 1 }
  else s

/-- `Ship.suffer_damage(damage)`: if `damage > 0`, subtract it from health
and reset the damage indicator timer to `DAMAGE_INDICATOR_TIME`; otherwise
do nothing. -/
noncomputable def Ship.suffer_damage (s : Ship) (damage : ℝ) : Ship :=
  if 0 < damage then
    { s with
      health := s.health - damage
      damage_indicator_timer := DAMAGE_INDICATOR_TIME }
  else s

/-- Movement sub-step of `Ship.step` (source lines 119-130): each active
movement flag nudges the position by `SPEED` along its axis.  The source
also computes `forward = self.get_faced_direction()` between the flag
checks, but never uses it, so it has no effect here.  Note this sub-step
takes no `dt`: the nudges are fixed per call. -/
def Ship.movementPhase (s : Ship) : Ship :=
  let s1 := if s.move_right then { s with pos := s.pos + ⟨SPEED, 0⟩ } else s
  let s2 := if s1.move_left then { s1 with pos := s1.pos + ⟨-SPEED, 0⟩ } else s1
  let s3 := if s2.move_up then { s2 with pos := s2.pos + ⟨0, -SPEED⟩ } else s2
  if s3.move_down then { s3 with pos := s3.pos + ⟨0, SPEED⟩ } else s3

/-- Damage-indicator decay sub-step of `Ship.step` (source line 133). -/
noncomputable def Ship.flashDecayPhase (s : Ship) (dt : ℝ) : Ship :=
  { s with damage_indicator_timer := max 0 (s.damage_indicator_timer - dt) }

/-- Modelled from the spec: the `super().step(dt)` call delegates to the
absent `physics.py` base step, which per spec section 6 integrates velocity
into position. -/
noncomputable def Ship.physicsStep (s : Ship) (dt : ℝ) : Ship :=
  { s with pos := s.pos + dt • s.vel }

/-- Projectile sub-step of `Ship.step` (source lines 137-138): step every
owned projectile. -/
noncomputable def Ship.projectilesPhase (s : Ship) (dt : ℝ) : Ship :=
  { s with projectiles := s.projectiles.map (fun b => Bullet.step b dt) }

/-- Gun-cooldown decay sub-step of `Ship.step` (source line 140). -/
noncomputable def Ship.cooldownDecayPhase (s : Ship) (dt : ℝ) : Ship :=
  { s with gun_cooldown := max 0 (s.gun_cooldown - dt) }

/-- `Ship.step(dt)`, mirroring the source line by line: movement nudges,
damage-indicator decay, base physics step, stepping every owned projectile,
gun-cooldown decay. -/
noncomputable def Ship.step (s : Ship) (dt : ℝ) : Ship :=
  let s1 := if s.move_right then { s with pos := s.pos + ⟨SPEED, 0⟩ } else s
  let s2 := if s1.move_left then { s1 with pos := s1.pos + ⟨-SPEED, 0⟩ } else s1
  let s3 := if s2.move_up then { s2 with pos := s2.pos + ⟨0, -SPEED⟩ } else s2
  let s4 := if s3.move_down then { s3 with pos := s3.pos + ⟨0, SPEED⟩ } else s3
  let s5 := { s4 with damage_indicator_timer := max 0 (s4.damage_indicator_timer - dt) }
  let s6 := { s5 with pos := s5.pos + dt • s5.vel }
  let s7 := { s6 with projectiles := s6.projectiles.map (fun b => Bullet.step b dt) }
  { s7 with gun_cooldown := max 0 (s7.gun_cooldown - dt) }

/-- Modelled from the spec: `apply_force(force, dt)` of the absent
`physics.py` base; spec section 6 exposes it as the way a force for this
tick reaches the integrator, so it contributes the impulse
`force * dt / mass` to the velocity. -/
noncomputable def Ship.applyForce (s : Ship) (force : Vec2) (dt : ℝ) : Ship :=
  { s with vel := s.vel + (dt / s.mass) • force }

/-- The invariants the spec states for `Ship` (section 3): non-negative gun
cooldown, damage-indicator timer within `[0, DAMAGE_INDICATOR_TIME]`,
non-negative ammo. -/
def Ship.Inv (s : Ship) : Prop :=
  0 ≤ s.gun_cooldown ∧
  0 ≤ s.damage_indicator_timer ∧
  s.damage_indicator_timer ≤ DAMAGE_INDICATOR_TIME ∧
  0 ≤ s.ammo

/-- The `BulletEnemy.Action` enum: `accelerate_to_player`,
`accelerate_randomly`, `decelerate`. -/
inductive Action where
  | accelerate_to_player
  | accelerate_randomly
  | decelerate
deriving DecidableEq

/-- `list(BulletEnemy.Action)`: the members in declaration order. -/
def Action.population : List Action :=
  [Action.accelerate_to_player, Action.accelerate_randomly, Action.decelerate]

/-- Running totals of a weight list, as `random.choices` accumulates them. -/
def cumSum : List ℝ → List ℝ
  | [] => []
  | w :: ws => w :: (cumSum ws).map (fun c => w + c)

/-- Insertion point of `u` in a sorted list, to the right of equal entries,
as computed by `bisect.bisect` inside `random.choices`. -/
noncomputable def bisectRight : List ℝ → ℝ → ℕ
  | [], _ => 0
  | c :: rest, u => if u < c then 0 else 1 + bisectRight rest u

/-- `random.choices(population, weights)` drawing one element: scale the
unit sample `u` by the total weight, locate it among the cumulative
weights (the search is clamped to the last index, as CPython clamps
`hi = n - 1`), and return that member; `none` only for an empty
population. -/
noncomputable def randomChoices (population : List Action) (weights : List ℝ)
    (u : ℝ) : Option Action :=
  population.get?
    (min (bisectRight (cumSum weights) (u * weights.sum))
      (population.length - 1))

/-- Oracle for the random draws `BulletEnemy.step` can make in one tick:
the unit sample behind `random.choices` and the two `random.uniform(-1, 1)`
samples behind `accelerate_randomly`. -/
structure Rng where
  uChoice : ℝ
  u1 : ℝ
  u2 : ℝ

/-- `math.atan2(y, x)`, via the complex argument of `x + y*i`. -/
noncomputable def atan2 (y x : ℝ) : ℝ := Complex.arg ⟨x, y⟩

/-- `math.degrees`. -/
noncomputable def degrees (r : ℝ) : ℝ := r * 180 / Real.pi

/-- State of a `BulletEnemy` from `ship.py`.  The target is held as an
optional reference: `none` models an absent (`None`) target, which Python
would fault on when its attributes are accessed. -/
structure BulletEnemy extends Ship where
  time_until_next_shot : ℝ
  action_timer : ℝ
  current_action : Action
  target_ship : Option Ship
  shoot_cooldown : ℝ

/-- `BulletEnemy.__init__(pos, vel, target_ship, shoot_cooldown, color)`
(the source defaults are `shoot_cooldown = 0.0125`, `color = Color("lime")`;
pass them explicitly). -/
noncomputable def BulletEnemy.init (pos vel : Vec2) (target_ship : Ship)
    (shoot_cooldown : ℝ) (color : Color) : BulletEnemy :=
  let base := Ship.init pos vel 1 8 color
  { toShip :=
      { base with
        thrust := base.thrust * 1
        health := 10000
        projectiles := [] }
    time_until_next_shot := 20
    action_timer := 6
    current_action := Action.accelerate_to_player
    target_ship := some target_ship
    shoot_cooldown := shoot_cooldown }

/-- First half of `BulletEnemy.step` (source lines 376-381): decrement the
action timer by `dt`; when it drops to or below zero, re-roll the current
action by `random.choices` over the three enum members with weights
`[0.9, 0.05, 0.05]` and reset the timer to 6.  The destructuring
`[self.current_action] = random.choices(...)` would fault on an empty
draw, modelled by the `none` branch. -/
noncomputable def BulletEnemy.reroll (e : BulletEnemy) (dt : ℝ) (u : ℝ) :
    Except String BulletEnemy :=
  let e1 : BulletEnemy := { e with action_timer := e.action_timer - dt }
  if e1.action_timer ≤ 0 then
    match randomChoices Action.population [0.9, 0.05, 0.05] u with
    | some a => Except.ok { e1 with current_action := a, action_timer := 6 }
    | none => Except.error "ValueError: not enough values to unpack"
  else Except.ok e1

/-- Second half of `BulletEnemy.step` (source lines 383-406): compute the
vector to the target (an absent target faults here), select the force
direction by the current action, normalize it (a zero magnitude raises
ZeroDivisionError in pygame, modelled by `Except.error`), apply the force,
run the base `Ship.step`, face the velocity, decrement the frame-count shot
counter by one, and when the target is within `ENEMY_SHOOT_RANGE` and the
counter has run out, call `shoot` and reset the counter to
`shoot_cooldown`. -/
noncomputable def BulletEnemy.act (e2 : BulletEnemy) (dt : ℝ) (rng : Rng) :
    Except String BulletEnemy :=
  match e2.target_ship with
  | none => Except.error "AttributeError: NoneType object has no attribute pos"
  | some tgt =>
    let delta_target_ship := tgt.pos - e2.pos
    let force_direction : Vec2 :=
      match e2.current_action with
      | Action.accelerate_to_player => delta_target_ship
      | Action.accelerate_randomly => ⟨rng.u1, rng.u2⟩
      | Action.decelerate => -e2.vel
    if force_direction.magnitude = 0 then
      Except.error "ZeroDivisionError: division by zero"
    else
      let force := (e2.thrust • force_direction).div force_direction.magnitude
      let e3 := { e2 with toShip := e2.toShip.applyForce force dt }
      let e4 := { e3 with toShip := e3.toShip.step dt }
      let e5 := { e4 with angle := degrees (atan2 e4.vel.y e4.vel.x) }
      let e6 := { e5 with time_until_next_shot := e5.time_until_next_shot - 1 }
      if delta_target_ship.magnitude_squared < ENEMY_SHOOT_RANGE ^ 2 ∧
          e6.time_until_next_shot ≤ 0 then
        let e7 := { e6 with toShip := e6.toShip.shoot }
        Except.ok { e7 with time_until_next_shot := e7.shoot_cooldown }
      else Except.ok e6

/-- `BulletEnemy.step(dt)`: the re-roll half followed by the act half. -/
noncomputable def BulletEnemy.step (e : BulletEnemy) (dt : ℝ) (rng : Rng) :
    Except String BulletEnemy :=
  (BulletEnemy.reroll e dt rng.uChoice).bind (fun e2 => BulletEnemy.act e2 dt rng)

/-! ## Projection lemmas for `Ship.step` -/

theorem Ship.step_gun_cooldown (s : Ship) (dt : ℝ) :
    (Ship.step s dt).gun_cooldown = max 0 (s.gun_cooldown - dt) := by
  simp only [Ship.step]
  split_ifs <;> rfl

theorem Ship.step_damage_indicator_timer (s : Ship) (dt : ℝ) :
    (Ship.step s dt).damage_indicator_timer =
      max 0 (s.damage_indicator_timer - dt) := by
  simp only [Ship.step]
  split_ifs <;> rfl

theorem Ship.step_ammo (s : Ship) (dt : ℝ) : (Ship.step s dt).ammo = s.ammo := by
  simp only [Ship.step]
  split_ifs <;> rfl

theorem Ship.step_projectiles (s : Ship) (dt : ℝ) :
    (Ship.step s dt).projectiles =
      s.projectiles.map (fun b => Bullet.step b dt) := by
  simp only [Ship.step]
  split_ifs <;> rfl

theorem Ship.step_vel (s : Ship) (dt : ℝ) : (Ship.step s dt).vel = s.vel := by
  simp only [Ship.step]
  split_ifs <;> rfl

/-! ## Concrete states used to evaluate the model -/

/-- A ship colored lime with a ready gun, used to evaluate `shoot`. -/
def CS1 : Ship :=
  { pos := ⟨0, 0⟩
    vel := ⟨0, 0⟩
    radius := 1
    mass := 1
    size := 1
    color := Color.lime
    angle := 0
    health := 10000
    projectiles := []
    gun_cooldown := 0
    has_trophy := false
    ammo := 1000
    thrust := 40
    rotation_thrust := 100
    move_right := false
    move_left := false
    move_down := false
    move_up := false
    fuel_consumption_rate := 0
    fuel_rot_consumption_rate := 0
    damage_indicator_timer := 0 }

/-- The spec scenario ship: at the origin, facing angle 0, one round of
ammo, gun ready, radius 1. -/
def CS3 : Ship :=
  { pos := ⟨0, 0⟩
    vel := ⟨0, 0⟩
    radius := 1
    mass := 1
    size := 1
    color := Color.lime
    angle := 0
    health := 10000
    projectiles := []
    gun_cooldown := 0
    has_trophy := false
    ammo := 1
    thrust := 40
    rotation_thrust := 100
    move_right := false
    move_left := false
    move_down := false
    move_up := false
    fuel_consumption_rate := 0
    fuel_rot_consumption_rate := 0
    damage_indicator_timer := 0 }

theorem CS3_faces_x : CS3.get_faced_direction = ⟨1, 0⟩ := by
  simp [Ship.get_faced_direction, Vec2.fromPolar, CS3]

/-! ## Claims -/

/-- Claim C1: the claim says a successfully spawned projectile carries the
firing ship's color.  The code does not: `Bullet.__init__` discards its
`color` argument and assigns `Color("black")`, contradicting its own
docstring.  Evaluated here: a lime ship with a ready gun shoots, and the
spawned bullet is black, not lime. -/
theorem c1_bullet_color_ignored :
    (Ship.shoot CS1).projectiles.map Bullet.color = [Color.black] ∧
    CS1.color = Color.lime ∧ Color.lime ≠ Color.black := by
  refine ⟨?_, rfl, by decide⟩
  rw [Ship.shoot, if_pos (by norm_num [CS1])]
  simp [Bullet.init, CS1]

/-- Claim C3: `shoot` is a no-op unless the gun cooldown is at most 0 and
ammo is positive; on success it appends exactly one projectile at
`pos + facing * radius * HEAD_LENGTH` with velocity
`vel + facing * BULLET_SPEED`, sets the cooldown to 0.5 and decrements the
ammo by one. -/
theorem c3_shoot_spec (s : Ship) :
    (¬(s.gun_cooldown ≤ 0 ∧ 0 < s.ammo) → Ship.shoot s = s) ∧
    (s.gun_cooldown ≤ 0 → 0 < s.ammo →
      (Ship.shoot s).projectiles.map Bullet.pos =
        s.projectiles.map Bullet.pos ++
          [s.pos + HEAD_LENGTH • (s.radius • s.get_faced_direction)] ∧
      (Ship.shoot s).projectiles.map Bullet.vel =
        s.projectiles.map Bullet.vel ++
          [s.vel + BULLET_SPEED • s.get_faced_direction] ∧
      (Ship.shoot s).projectiles.length = s.projectiles.length + 1 ∧
      (Ship.shoot s).gun_cooldown = 0.5 ∧
      (Ship.shoot s).ammo = s.ammo - 1) := by
  constructor
  · intro h
    rw [Ship.shoot, if_neg h]
  · intro h1 h2
    rw [Ship.shoot, if_pos ⟨h1, h2⟩]
    simp [Bullet.init]

/-- Witness for C3, the spec scenario: the ship `CS3` (origin, facing
angle 0, radius 1, `ammo = 1`, `gun_cooldown = 0`) shoots; exactly one
bullet appears at `(radius * HEAD_LENGTH, 0) = (3, 0)` with velocity
`(0 + 300, 0)`; ammo drops to 0 and the cooldown becomes 0.5. -/
theorem c3_shoot_scenario :
    (CS3.gun_cooldown ≤ 0 ∧ 0 < CS3.ammo) ∧
    (Ship.shoot CS3).projectiles.map Bullet.pos = [⟨3, 0⟩] ∧
    (Ship.shoot CS3).projectiles.map Bullet.vel = [⟨300, 0⟩] ∧
    (Ship.shoot CS3).ammo = 0 ∧
    (Ship.shoot CS3).gun_cooldown = 0.5 := by
  have h := (c3_shoot_spec CS3).2 (by norm_num [CS3]) (by norm_num [CS3])
  obtain ⟨hp, hv, -, hc, ha⟩ := h
  rw [CS3_faces_x] at hp hv
  refine ⟨by norm_num [CS3], ?_, ?_, ?_, hc⟩
  · rw [hp]
    norm_num [CS3, HEAD_LENGTH]
  · rw [hv]
    norm_num [CS3, BULLET_SPEED]
  · rw [ha]
    norm_num [CS3]

/-- Claim C4: `suffer_damage` with a non-positive amount changes nothing;
with a positive amount it subtracts exactly that amount from health and
resets the damage-indicator timer to exactly `DAMAGE_INDICATOR_TIME`
(0.75), whatever its prior value. -/
theorem c4_suffer_damage_spec (s : Ship) (amount : ℝ) :
    (amount ≤ 0 → Ship.suffer_damage s amount = s) ∧
    (0 < amount →
      (Ship.suffer_damage s amount).health = s.health - amount ∧
      (Ship.suffer_damage s amount).damage_indicator_timer = 0.75) := by
  constructor
  · intro h
    rw [Ship.suffer_damage, if_neg (not_lt.mpr h)]
  · intro h
    rw [Ship.suffer_damage, if_pos h]
    exact ⟨rfl, rfl⟩

/-- Witness for C4: on the concrete ship `CS3`, damage `-5` (and hence any
non-positive damage) is a strict no-op, while damage `5` lowers health by 5
and sets the indicator timer to 0.75. -/
theorem c4_suffer_damage_witness :
    Ship.suffer_damage CS3 (-5) = CS3 ∧
    (Ship.suffer_damage CS3 5).health = CS3.health - 5 ∧
    (Ship.suffer_damage CS3 5).damage_indicator_timer = 0.75 :=
  ⟨(c4_suffer_damage_spec CS3 (-5)).1 (by norm_num),
   (c4_suffer_damage_spec CS3 5).2 (by norm_num)⟩

/-- Ship state with no ammo, used to witness the ammo-floor part of C5. -/
def CS5 : Ship := { CS3 with ammo := 0 }

/-- Claim C5: given `0 ≤ dt`, the operations `shoot`, `suffer_damage` and
`step` preserve the spec invariants (gun cooldown at least 0,
damage-indicator timer within `[0, 0.75]`, ammo at least 0); ticking with
an arbitrarily large `dt` still cannot push either timer below 0, and a
ship with no ammo can call `shoot` any number of times without producing a
projectile. -/
theorem c5_invariants (s : Ship) (dt amount : ℝ) (hdt : 0 ≤ dt)
    (hs : Ship.Inv s) :
    Ship.Inv (Ship.shoot s) ∧
    Ship.Inv (Ship.suffer_damage s amount) ∧
    Ship.Inv (Ship.step s dt) ∧
    (s.ammo = 0 → ∀ n : ℕ, (Ship.shoot^[n] s).projectiles = s.projectiles) := by
  obtain ⟨h1, h2, h3, h4⟩ := hs
  refine ⟨?_, ?_, ?_, ?_⟩
  · rw [Ship.shoot]
    split_ifs with hg
    · have hpos := hg.2
      refine ⟨by norm_num, h2, h3, ?_⟩
      show (0:ℤ) ≤ s.ammo - 1
      omega
    · exact ⟨h1, h2, h3, h4⟩
  · rw [Ship.suffer_damage]
    split_ifs
    · exact ⟨h1, by norm_num [DAMAGE_INDICATOR_TIME], le_refl _, h4⟩
    · exact ⟨h1, h2, h3, h4⟩
  · refine ⟨?_, ?_, ?_, ?_⟩
    · rw [Ship.step_gun_cooldown]
      exact le_max_left 0 _
    · rw [Ship.step_damage_indicator_timer]
      exact le_max_left 0 _
    · rw [Ship.step_damage_indicator_timer]
      exact max_le (by norm_num [DAMAGE_INDICATOR_TIME]) (by linarith)
    · rw [Ship.step_ammo]
      exact h4
  · intro h0 n
    have hno : Ship.shoot s = s := by
      rw [Ship.shoot, if_neg]
      rintro ⟨-, hpos⟩
      omega
    have hiter : Ship.shoot^[n] s = s := by
      induction n with
      | zero => rfl
      | succ n ih => rw [Function.iterate_succ_apply, hno, ih]
    rw [hiter]

/-- Witness for C5 at the concrete no-ammo ship `CS5` with `dt = 2`,
`amount = 1`: the invariants hold before and after a step, and five
refused shots leave the projectile list untouched. -/
theorem c5_invariants_witness :
    ((0:ℝ) ≤ 2 ∧ Ship.Inv CS5) ∧
    Ship.Inv (Ship.step CS5 2) ∧
    (Ship.shoot^[5] CS5).projectiles = CS5.projectiles := by
  have h := c5_invariants CS5 2 1 (by norm_num)
    (by norm_num [Ship.Inv, CS5, CS3, DAMAGE_INDICATOR_TIME])
  exact ⟨⟨by norm_num, by norm_num [Ship.Inv, CS5, CS3, DAMAGE_INDICATOR_TIME]⟩,
    h.2.2.1, h.2.2.2 (by norm_num [CS5, CS3]) 5⟩

/-- Claim C6: `Ship.step` runs movement nudges, damage-flash decay, the
base physics step, the projectile ticks, and the gun-cooldown decay in that
order, and the movement nudges are fixed `SPEED = 0.5` offsets along the
cardinal axes (right `+x`, left `-x`, up `-y`, down `+y`); `movementPhase`
takes no `dt` argument, so the nudges are independent of `dt`. -/
theorem c6_step_order (s : Ship) (dt : ℝ) :
    Ship.step s dt =
      Ship.cooldownDecayPhase
        (Ship.projectilesPhase
          (Ship.physicsStep (Ship.flashDecayPhase (Ship.movementPhase s) dt) dt)
          dt)
        dt ∧
    (Ship.movementPhase s).pos =
      s.pos + (if s.move_right then (⟨SPEED, 0⟩ : Vec2) else ⟨0, 0⟩) +
        (if s.move_left then (⟨-SPEED, 0⟩ : Vec2) else ⟨0, 0⟩) +
        (if s.move_up then (⟨0, -SPEED⟩ : Vec2) else ⟨0, 0⟩) +
        (if s.move_down then (⟨0, SPEED⟩ : Vec2) else ⟨0, 0⟩) ∧
    SPEED = 0.5 := by
  refine ⟨rfl, ?_, rfl⟩
  cases hr : s.move_right <;> cases hl : s.move_left <;>
    cases hu : s.move_up <;> cases hd : s.move_down <;>
      simp [Ship.movementPhase, hr, hl, hu, hd]

/-! ## Evaluation of the weighted draw and the re-roll half -/

/-- For a unit sample `u` in `[0, 1)`, `random.choices` over the three
actions with weights `0.9 / 0.05 / 0.05` returns `accelerate_to_player`
below `0.9`, `accelerate_randomly` in `[0.9, 0.95)`, and `decelerate`
above. -/
theorem randomChoices_eval (u : ℝ) (h0 : 0 ≤ u) (h1 : u < 1) :
    randomChoices Action.population [0.9, 0.05, 0.05] u =
      some (if u < 0.9 then Action.accelerate_to_player
            else if u < 0.95 then Action.accelerate_randomly
            else Action.decelerate) := by
  have hsum : ([0.9, 0.05, 0.05] : List ℝ).sum = 1 := by norm_num
  have hcum : cumSum [0.9, 0.05, 0.05] = [0.9, 0.95, 1] := by
    norm_num [cumSum]
  rw [randomChoices, hsum, mul_one, hcum]
  by_cases h9 : u < 0.9
  · simp [bisectRight, h9, Action.population]
  · by_cases h95 : u < 0.95
    · simp [bisectRight, h9, h95, Action.population]
    · simp [bisectRight, h9, h95, h1, Action.population]

/-- A successful re-roll half leaves every `Ship`-level field, the target
reference, the frame-count shot counter and the shot cooldown unchanged. -/
theorem reroll_frame (e : BulletEnemy) (dt u : ℝ) (e2 : BulletEnemy)
    (h : BulletEnemy.reroll e dt u = Except.ok e2) :
    e2.toShip = e.toShip ∧ e2.target_ship = e.target_ship ∧
    e2.time_until_next_shot = e.time_until_next_shot ∧
    e2.shoot_cooldown = e.shoot_cooldown := by
  dsimp only [BulletEnemy.reroll] at h
  split_ifs at h
  · cases hm : randomChoices Action.population [0.9, 0.05, 0.05] u with
    | none =>
      rw [hm] at h
      cases h
    | some a =>
      rw [hm] at h
      simp only [Except.ok.injEq] at h
      subst h
      exact ⟨rfl, rfl, rfl, rfl⟩
  · simp only [Except.ok.injEq] at h
    subst h
    exact ⟨rfl, rfl, rfl, rfl⟩

/-- Action-machine content of a successful re-roll half: for a unit sample
in `[0, 1)`, the current action and timer are untouched (beyond the `dt`
decrement) while the timer stays positive, and when the decremented timer
reaches `≤ 0` the action is redrawn by the 0.9/0.05/0.05 weighted choice
and the timer is reset to 6. -/
theorem reroll_action (e : BulletEnemy) (dt u : ℝ) (e2 : BulletEnemy)
    (h0 : 0 ≤ u) (h1 : u < 1)
    (h : BulletEnemy.reroll e dt u = Except.ok e2) :
    (0 < e.action_timer - dt →
      e2.current_action = e.current_action ∧
      e2.action_timer = e.action_timer - dt) ∧
    (e.action_timer - dt ≤ 0 →
      e2.action_timer = 6 ∧
      e2.current_action =
        (if u < 0.9 then Action.accelerate_to_player
         else if u < 0.95 then Action.accelerate_randomly
         else Action.decelerate)) := by
  dsimp only [BulletEnemy.reroll] at h
  rw [randomChoices_eval u h0 h1] at h
  by_cases hc : e.action_timer - dt ≤ 0
  · rw [if_pos hc] at h
    dsimp only [] at h
    simp only [Except.ok.injEq] at h
    subst h
    exact ⟨fun hpos => absurd hc (not_le.mpr hpos), fun _ => ⟨rfl, rfl⟩⟩
  · rw [if_neg hc] at h
    simp only [Except.ok.injEq] at h
    subst h
    exact ⟨fun _ => ⟨rfl, rfl⟩, fun hle => absurd hle hc⟩

/-- Helper for `act_spec`: the part of the act half after the target
dereference, with the selected force direction `fd` abstracted.  The
hypothesis is the residual computation of `BulletEnemy.act` once
`target_ship = some tgt` is known. -/
theorem act_core (e2 : BulletEnemy) (dt : ℝ) (tgt : Ship) (fd : Vec2)
    (s' : BulletEnemy)
    (h : (if fd.magnitude = 0 then
            (Except.error "ZeroDivisionError: division by zero" :
              Except String BulletEnemy)
          else
            let force := (e2.thrust • fd).div fd.magnitude
            let e3 : BulletEnemy := { e2 with toShip := e2.toShip.applyForce force dt }
            let e4 : BulletEnemy := { e3 with toShip := e3.toShip.step dt }
            let e5 : BulletEnemy := { e4 with angle := degrees (atan2 e4.vel.y e4.vel.x) }
            let e6 : BulletEnemy := { e5 with time_until_next_shot := e5.time_until_next_shot - 1 }
            if (tgt.pos - e2.pos).magnitude_squared < ENEMY_SHOOT_RANGE ^ 2 ∧
                e6.time_until_next_shot ≤ 0 then
              let e7 : BulletEnemy := { e6 with toShip := e6.toShip.shoot }
              Except.ok { e7 with time_until_next_shot := e7.shoot_cooldown }
            else Except.ok e6) = Except.ok s') :
    (s'.current_action = e2.current_action ∧
      s'.action_timer = e2.action_timer) ∧
    (¬((tgt.pos - e2.pos).magnitude_squared < ENEMY_SHOOT_RANGE ^ 2 ∧
        e2.time_until_next_shot - 1 ≤ 0) →
      s'.time_until_next_shot = e2.time_until_next_shot - 1 ∧
      s'.projectiles.length = e2.projectiles.length) ∧
    (((tgt.pos - e2.pos).magnitude_squared < ENEMY_SHOOT_RANGE ^ 2 ∧
        e2.time_until_next_shot - 1 ≤ 0) →
      s'.time_until_next_shot = e2.shoot_cooldown ∧
      ((dt < e2.gun_cooldown ∨ e2.ammo ≤ 0) →
        s'.projectiles.length = e2.projectiles.length)) := by
  dsimp only [] at h
  split_ifs at h with hmag hgate
  · simp only [Except.ok.injEq] at h
    subst h
    refine ⟨⟨rfl, rfl⟩, fun hn => absurd hgate hn, fun _ => ⟨rfl, fun href => ?_⟩⟩
    generalize hT :
      (e2.toShip.applyForce ((e2.thrust • fd).div fd.magnitude) dt).step dt = T
    have hgc : T.gun_cooldown = max 0 (e2.gun_cooldown - dt) := by
      rw [← hT, Ship.step_gun_cooldown]
      rfl
    have hammo : T.ammo = e2.ammo := by
      rw [← hT, Ship.step_ammo]
      rfl
    have hrefuse : ¬(T.gun_cooldown ≤ 0 ∧ 0 < T.ammo) := by
      rw [hgc, hammo]
      rcases href with hcool | hammo0
      · rintro ⟨hle, -⟩
        have h1 := le_max_right (0:ℝ) (e2.gun_cooldown - dt)
        linarith
      · rintro ⟨-, hpos⟩
        omega
    rw [Ship.shoot]
    dsimp only []
    rw [if_neg hrefuse]
    show T.projectiles.length = e2.projectiles.length
    rw [← hT, Ship.step_projectiles, List.length_map]
    rfl
  · simp only [Except.ok.injEq] at h
    subst h
    refine ⟨⟨rfl, rfl⟩, fun _ => ⟨rfl, ?_⟩, fun hg => absurd hg hgate⟩
    show ((e2.toShip.applyForce ((e2.thrust • fd).div fd.magnitude) dt).step
        dt).projectiles.length = e2.projectiles.length
    rw [Ship.step_projectiles, List.length_map]
    rfl

/-- Characterization of a successful act half when a target is present:
the action-machine fields are untouched; when the shoot gate (squared
distance to target strictly below `ENEMY_SHOOT_RANGE ^ 2` and decremented
frame counter at most 0) fails, the counter simply holds the decrement and
no projectile is added; when the gate holds, the counter is reset to
`shoot_cooldown`, and if the inner `shoot` is refused (time-based cooldown
still above `dt`, or no ammo) still no projectile is added. -/
theorem act_spec (e2 : BulletEnemy) (dt : ℝ) (rng : Rng) (tgt : Ship)
    (s' : BulletEnemy) (htgt : e2.target_ship = some tgt)
    (h : BulletEnemy.act e2 dt rng = Except.ok s') :
    (s'.current_action = e2.current_action ∧
      s'.action_timer = e2.action_timer) ∧
    (¬((tgt.pos - e2.pos).magnitude_squared < ENEMY_SHOOT_RANGE ^ 2 ∧
        e2.time_until_next_shot - 1 ≤ 0) →
      s'.time_until_next_shot = e2.time_until_next_shot - 1 ∧
      s'.projectiles.length = e2.projectiles.length) ∧
    (((tgt.pos - e2.pos).magnitude_squared < ENEMY_SHOOT_RANGE ^ 2 ∧
        e2.time_until_next_shot - 1 ≤ 0) →
      s'.time_until_next_shot = e2.shoot_cooldown ∧
      ((dt < e2.gun_cooldown ∨ e2.ammo ≤ 0) →
        s'.projectiles.length = e2.projectiles.length)) := by
  dsimp only [BulletEnemy.act] at h
  split at h
  · rename_i heq
    rw [heq] at htgt
    cases htgt
  · rename_i t heq
    rw [heq] at htgt
    cases htgt
    exact act_core e2 dt tgt _ s' h

/-- A successful `step` factors into a successful re-roll half followed by
a successful act half. -/
theorem step_ok_decomp (e : BulletEnemy) (dt : ℝ) (rng : Rng)
    (s' : BulletEnemy) (h : BulletEnemy.step e dt rng = Except.ok s') :
    ∃ e2, BulletEnemy.reroll e dt rng.uChoice = Except.ok e2 ∧
      BulletEnemy.act e2 dt rng = Except.ok s' := by
  rw [BulletEnemy.step] at h
  cases hre : BulletEnemy.reroll e dt rng.uChoice with
  | error msg =>
    rw [hre] at h
    simp only [Except.bind] at h
    cases h
  | ok e2 =>
    rw [hre] at h
    simp only [Except.bind] at h
    exact ⟨e2, rfl, h⟩

/-- A successful act half implies the target reference was present. -/
theorem act_ok_target (e2 : BulletEnemy) (dt : ℝ) (rng : Rng)
    (s' : BulletEnemy) (h : BulletEnemy.act e2 dt rng = Except.ok s') :
    ∃ tgt, e2.target_ship = some tgt := by
  dsimp only [BulletEnemy.act] at h
  split at h
  · cases h
  · rename_i t heq
    exact ⟨t, heq⟩

/-- Claim C7: each `step` decrements the action timer by `dt`; the current
action is re-rolled only when the decremented timer is at most 0, the
re-roll draws among exactly the three actions with weights 0.9 / 0.05 /
0.05 applied to the unit sample, the timer then resets to 6; and the
current action is always one of the three variants. -/
theorem c7_action_machine (e : BulletEnemy) (dt : ℝ) (rng : Rng)
    (s' : BulletEnemy) (hu0 : 0 ≤ rng.uChoice) (hu1 : rng.uChoice < 1)
    (hs : BulletEnemy.step e dt rng = Except.ok s') :
    (s'.current_action = Action.accelerate_to_player ∨
      s'.current_action = Action.accelerate_randomly ∨
      s'.current_action = Action.decelerate) ∧
    (0 < e.action_timer - dt →
      s'.current_action = e.current_action ∧
      s'.action_timer = e.action_timer - dt) ∧
    (e.action_timer - dt ≤ 0 →
      s'.action_timer = 6 ∧
      s'.current_action =
        (if rng.uChoice < 0.9 then Action.accelerate_to_player
         else if rng.uChoice < 0.95 then Action.accelerate_randomly
         else Action.decelerate)) := by
  obtain ⟨e2, hre, hact⟩ := step_ok_decomp e dt rng s' hs
  obtain ⟨tgt, htgt⟩ := act_ok_target e2 dt rng s' hact
  have haction := reroll_action e dt rng.uChoice e2 hu0 hu1 hre
  obtain ⟨⟨hca, hat⟩, -, -⟩ := act_spec e2 dt rng tgt s' htgt hact
  refine ⟨?_, ?_, ?_⟩
  · cases hq : s'.current_action <;> simp
  · intro hpos
    have hh := haction.1 hpos
    exact ⟨hca.trans hh.1, hat.trans hh.2⟩
  · intro hle
    have hh := haction.2 hle
    exact ⟨hat.trans hh.1, hca.trans hh.2⟩

/-- Claim C8: during a successful `step` of an autonomous ship, the
frame-count counter is decremented by exactly 1 (not by `dt`); when the
squared distance to the target is not strictly below
`ENEMY_SHOOT_RANGE ^ 2`, or the decremented counter is still positive, no
projectile is spawned and the counter merely holds the decrement —
in particular a ship out of range never fires regardless of the counter —
and when both gates pass the counter is reset to `shoot_cooldown`. -/
theorem c8_shoot_gate (e : BulletEnemy) (dt : ℝ) (rng : Rng) (tgt : Ship)
    (s' : BulletEnemy) (htgt : e.target_ship = some tgt)
    (hs : BulletEnemy.step e dt rng = Except.ok s') :
    (¬((tgt.pos - e.pos).magnitude_squared < ENEMY_SHOOT_RANGE ^ 2 ∧
        e.time_until_next_shot - 1 ≤ 0) →
      s'.projectiles.length = e.projectiles.length ∧
      s'.time_until_next_shot = e.time_until_next_shot - 1) ∧
    (((tgt.pos - e.pos).magnitude_squared < ENEMY_SHOOT_RANGE ^ 2 ∧
        e.time_until_next_shot - 1 ≤ 0) →
      s'.time_until_next_shot = e.shoot_cooldown) := by
  obtain ⟨e2, hre, hact⟩ := step_ok_decomp e dt rng s' hs
  obtain ⟨hship, htgt2, htime, hcool⟩ := reroll_frame e dt rng.uChoice e2 hre
  have hpos : e2.pos = e.pos := congrArg Ship.pos hship
  have hproj : e2.projectiles = e.projectiles := congrArg Ship.projectiles hship
  have hacts := act_spec e2 dt rng tgt s' (htgt2.trans htgt) hact
  rw [hpos, hproj, htime, hcool] at hacts
  exact ⟨fun hn => ⟨(hacts.2.1 hn).2, (hacts.2.1 hn).1⟩,
    fun hg => (hacts.2.2 hg).1⟩

/-- Claim C10: when the shoot gate passes during a successful `step` but
the inner `shoot` is itself refused (the time-based gun cooldown is still
above `dt`, or the ammo is gone), the frame-count counter is reset to
`shoot_cooldown` all the same, and no projectile is spawned. -/
theorem c10_counter_reset (e : BulletEnemy) (dt : ℝ) (rng : Rng) (tgt : Ship)
    (s' : BulletEnemy) (htgt : e.target_ship = some tgt)
    (hs : BulletEnemy.step e dt rng = Except.ok s')
    (hgate : (tgt.pos - e.pos).magnitude_squared < ENEMY_SHOOT_RANGE ^ 2 ∧
      e.time_until_next_shot - 1 ≤ 0)
    (hrefuse : dt < e.gun_cooldown ∨ e.ammo ≤ 0) :
    s'.time_until_next_shot = e.shoot_cooldown ∧
    s'.projectiles.length = e.projectiles.length := by
  obtain ⟨e2, hre, hact⟩ := step_ok_decomp e dt rng s' hs
  obtain ⟨hship, htgt2, htime, hcool⟩ := reroll_frame e dt rng.uChoice e2 hre
  have hpos : e2.pos = e.pos := congrArg Ship.pos hship
  have hproj : e2.projectiles = e.projectiles := congrArg Ship.projectiles hship
  have hgc : e2.gun_cooldown = e.gun_cooldown :=
    congrArg Ship.gun_cooldown hship
  have hammo : e2.ammo = e.ammo := congrArg Ship.ammo hship
  have hacts := act_spec e2 dt rng tgt s' (htgt2.trans htgt) hact
  rw [hpos, hproj, htime, hcool, hgc, hammo] at hacts
  exact ⟨(hacts.2.2 hgate).1, (hacts.2.2 hgate).2 hrefuse⟩

/-! ## Concrete autonomous-ship states -/

/-- A stationary target ship at `(3, 4)`. -/
def T0 : Ship :=
  { pos := ⟨3, 4⟩
    vel := ⟨0, 0⟩
    radius := 1
    mass := 1
    size := 1
    color := Color.lime
    angle := 270
    health := 10000
    projectiles := []
    gun_cooldown := 0
    has_trophy := false
    ammo := 1000
    thrust := 40
    rotation_thrust := 100
    move_right := false
    move_left := false
    move_down := false
    move_up := false
    fuel_consumption_rate := 0
    fuel_rot_consumption_rate := 0
    damage_indicator_timer := 0 }

/-- Ship-level state at the origin, at rest, gun ready. -/
def ShipAtOrigin : Ship :=
  { pos := ⟨0, 0⟩
    vel := ⟨0, 0⟩
    radius := 1
    mass := 1
    size := 1
    color := Color.lime
    angle := 270
    health := 10000
    projectiles := []
    gun_cooldown := 0
    has_trophy := false
    ammo := 1000
    thrust := 40
    rotation_thrust := 100
    move_right := false
    move_left := false
    move_down := false
    move_up := false
    fuel_consumption_rate := 0
    fuel_rot_consumption_rate := 0
    damage_indicator_timer := 0 }

/-- Random oracle used by the concrete evaluations: unit sample `0.3`. -/
def R7 : Rng := ⟨0.3, 0, 0⟩

/-- Autonomous ship one tick away from an action re-roll. -/
def E7 : BulletEnemy :=
  { toShip := ShipAtOrigin
    time_until_next_shot := 20
    action_timer := 0.5
    current_action := Action.decelerate
    target_ship := some T0
    shoot_cooldown := 0.0125 }

/-- Autonomous ship at rest in the `decelerate` action with a fresh action
timer: the force-normalization input for this tick is the zero vector. -/
def E2c : BulletEnemy :=
  { toShip := ShipAtOrigin
    time_until_next_shot := 20
    action_timer := 6
    current_action := Action.decelerate
    target_ship := some T0
    shoot_cooldown := 0.0125 }

/-- Autonomous ship whose target reference is absent. -/
def E9c : BulletEnemy :=
  { toShip := ShipAtOrigin
    time_until_next_shot := 20
    action_timer := 6
    current_action := Action.accelerate_to_player
    target_ship := none
    shoot_cooldown := 0.0125 }

/-- Claim C2 evaluation: stepping the stationary ship `E2c`, which is in
the `decelerate` action with velocity `(0, 0)`, raises the modelled
ZeroDivisionError (pygame divides the thrust-scaled direction by a zero
magnitude) instead of applying zero force. -/
theorem c2_decelerate_zero_velocity_raises :
    BulletEnemy.step E2c 1 R7 =
      Except.error "ZeroDivisionError: division by zero" := by
  have hre : BulletEnemy.reroll E2c 1 R7.uChoice =
      Except.ok { E2c with action_timer := E2c.action_timer - 1 } := by
    dsimp only [BulletEnemy.reroll]
    rw [if_neg]
    norm_num [E2c]
  rw [BulletEnemy.step, hre]
  simp only [Except.bind]
  dsimp only [BulletEnemy.act, E2c, T0, ShipAtOrigin]
  rw [if_pos]
  rw [Vec2.magnitude]
  norm_num

/-- Claim C9 evaluation: stepping the ship `E9c`, whose target reference
is absent, raises the modelled AttributeError at the
`delta_target_ship` computation instead of applying no force. -/
theorem c9_missing_target_raises :
    BulletEnemy.step E9c 1 R7 =
      Except.error "AttributeError: NoneType object has no attribute pos" := by
  have hre : BulletEnemy.reroll E9c 1 R7.uChoice =
      Except.ok { E9c with action_timer := E9c.action_timer - 1 } := by
    dsimp only [BulletEnemy.reroll]
    rw [if_neg]
    norm_num [E9c]
  rw [BulletEnemy.step, hre]
  simp only [Except.bind]
  dsimp only [BulletEnemy.act, E9c]

/-- State of `E7` right after its re-roll: action redrawn to
`accelerate_to_player`, timer reset to 6. -/
def E7mid : BulletEnemy :=
  { E7 with
    current_action := Action.accelerate_to_player
    action_timer := 6 }

/-- Ship-level state after one seek-step from the origin toward `T0`:
the unit direction `(3/5, 4/5)` times thrust 40 over mass 1 gives velocity
`(24, 32)`, which one second of integration turns into position
`(24, 32)`; both decay timers clamp at 0. -/
noncomputable def SAfter : Ship :=
  { pos := ⟨24, 32⟩
    vel := ⟨24, 32⟩
    radius := 1
    mass := 1
    size := 1
    color := Color.lime
    angle := degrees (atan2 32 24)
    health := 10000
    projectiles := []
    gun_cooldown := 0
    has_trophy := false
    ammo := 1000
    thrust := 40
    rotation_thrust := 100
    move_right := false
    move_left := false
    move_down := false
    move_up := false
    fuel_consumption_rate := 0
    fuel_rot_consumption_rate := 0
    damage_indicator_timer := 0 }

/-- Expected result of stepping `E7` for one second with oracle `R7`. -/
noncomputable def S7 : BulletEnemy :=
  { toShip := SAfter
    time_until_next_shot := 19
    action_timer := 6
    current_action := Action.accelerate_to_player
    target_ship := some T0
    shoot_cooldown := 0.0125 }

theorem magnitude_3_4 : Vec2.magnitude ⟨(3:ℝ) - 0, (4:ℝ) - 0⟩ = 5 := by
  rw [Vec2.magnitude]
  rw [show (((3:ℝ) - 0) * ((3:ℝ) - 0) + ((4:ℝ) - 0) * ((4:ℝ) - 0)) = 5 ^ 2 by
    norm_num]
  exact Real.sqrt_sq (by norm_num)

theorem rerollE7 : BulletEnemy.reroll E7 1 R7.uChoice = Except.ok E7mid := by
  dsimp only [BulletEnemy.reroll]
  rw [if_pos (show E7.action_timer - 1 ≤ 0 by norm_num [E7])]
  rw [randomChoices_eval R7.uChoice (by norm_num [R7]) (by norm_num [R7])]
  rw [if_pos (show R7.uChoice < 0.9 by norm_num [R7])]
  rfl

theorem actE7 : BulletEnemy.act E7mid 1 R7 = Except.ok S7 := by
  dsimp only [BulletEnemy.act, E7mid, E7, ShipAtOrigin, T0]
  simp only [Vec2.sub_def]
  rw [if_neg (by rw [magnitude_3_4]; norm_num)]
  rw [magnitude_3_4]
  rw [if_neg (by norm_num)]
  simp only [S7, SAfter, T0, Ship.applyForce, Ship.step, Vec2.div,
    Vec2.smul_def, Vec2.add_def, List.map_nil, Except.ok.injEq,
    BulletEnemy.mk.injEq, Ship.mk.injEq, Vec2.mk.injEq, Bool.false_eq_true,
    if_false]
  norm_num [max_def]

theorem stepE7 : BulletEnemy.step E7 1 R7 = Except.ok S7 := by
  rw [BulletEnemy.step, rerollE7]
  simp only [Except.bind]
  exact actE7

/-- Autonomous ship with no ammo whose frame counter expires this tick,
within shooting range of its target. -/
def E10 : BulletEnemy :=
  { toShip := { ShipAtOrigin with ammo := 0 }
    time_until_next_shot := 1
    action_timer := 6
    current_action := Action.accelerate_to_player
    target_ship := some T0
    shoot_cooldown := 0.0125 }

/-- State of `E10` after the (re-roll-free) timer decrement. -/
def E10mid : BulletEnemy := { E10 with action_timer := E10.action_timer - 1 }

/-- Expected result of stepping `E10` for one second with oracle `R7`:
the gate passes, the ammo-starved `shoot` is refused, and the frame
counter is still reset to `shoot_cooldown`. -/
noncomputable def S10 : BulletEnemy :=
  { toShip := { SAfter with ammo := 0 }
    time_until_next_shot := 0.0125
    action_timer := 5
    current_action := Action.accelerate_to_player
    target_ship := some T0
    shoot_cooldown := 0.0125 }

theorem rerollE10 : BulletEnemy.reroll E10 1 R7.uChoice = Except.ok E10mid := by
  dsimp only [BulletEnemy.reroll]
  rw [if_neg]
  · norm_num [E10, E10mid, ShipAtOrigin]
  · norm_num [E10]

theorem actE10 : BulletEnemy.act E10mid 1 R7 = Except.ok S10 := by
  dsimp only [BulletEnemy.act, E10mid, E10, ShipAtOrigin, T0]
  simp only [Vec2.sub_def]
  rw [if_neg (by rw [magnitude_3_4]; norm_num)]
  rw [magnitude_3_4]
  rw [if_pos (by norm_num [Vec2.magnitude_squared, ENEMY_SHOOT_RANGE])]
  rw [Ship.shoot]
  rw [if_neg (by
    norm_num [Ship.step_gun_cooldown, Ship.step_ammo, Ship.applyForce,
      max_def])]
  simp only [S10, SAfter, T0, Ship.applyForce, Ship.step, Vec2.div,
    Vec2.smul_def, Vec2.add_def, List.map_nil, Except.ok.injEq,
    BulletEnemy.mk.injEq, Ship.mk.injEq, Vec2.mk.injEq, Bool.false_eq_true,
    if_false]
  norm_num [max_def]

theorem stepE10 : BulletEnemy.step E10 1 R7 = Except.ok S10 := by
  rw [BulletEnemy.step, rerollE10]
  simp only [Except.bind]
  exact actE10

/-- Witness for C7: stepping `E7` (action timer 0.5, so the decrement by
`dt = 1` triggers a re-roll) with unit sample 0.3 lands in
`accelerate_to_player` (the 90% branch) and resets the timer to 6. -/
theorem c7_action_machine_witness :
    ((0:ℝ) ≤ R7.uChoice ∧ R7.uChoice < 1 ∧ E7.action_timer - 1 ≤ 0) ∧
    S7.action_timer = 6 ∧
    S7.current_action = Action.accelerate_to_player := by
  have h := c7_action_machine E7 1 R7 S7 (by norm_num [R7]) (by norm_num [R7])
    stepE7
  have h3 := h.2.2 (by norm_num [E7])
  refine ⟨⟨by norm_num [R7], by norm_num [R7], by norm_num [E7]⟩, h3.1, ?_⟩
  rw [h3.2]
  norm_num [R7]

/-- Witness for C8: `E7` is within range of `T0` (squared distance 25) but
its frame counter is still at 20, so the decremented counter 19 fails the
gate: no projectile appears and the counter merely holds the decrement. -/
theorem c8_shoot_gate_witness :
    (E7.target_ship = some T0 ∧
      ¬((T0.pos - E7.pos).magnitude_squared < ENEMY_SHOOT_RANGE ^ 2 ∧
        E7.time_until_next_shot - 1 ≤ 0)) ∧
    S7.projectiles.length = E7.projectiles.length ∧
    S7.time_until_next_shot = E7.time_until_next_shot - 1 := by
  have hn : ¬((T0.pos - E7.pos).magnitude_squared < ENEMY_SHOOT_RANGE ^ 2 ∧
      E7.time_until_next_shot - 1 ≤ 0) := by
    norm_num [T0, E7, ShipAtOrigin, Vec2.magnitude_squared, ENEMY_SHOOT_RANGE]
  have h := (c8_shoot_gate E7 1 R7 T0 S7 rfl stepE7).1 hn
  exact ⟨⟨rfl, hn⟩, h.1, h.2⟩

/-- Witness for C10: `E10` is in range with its counter expiring, but has
no ammo, so the inner `shoot` is refused; the counter is reset to
`shoot_cooldown = 0.0125` anyway and no projectile appears. -/
theorem c10_counter_reset_witness :
    (E10.target_ship = some T0 ∧
      ((T0.pos - E10.pos).magnitude_squared < ENEMY_SHOOT_RANGE ^ 2 ∧
        E10.time_until_next_shot - 1 ≤ 0) ∧
      E10.ammo ≤ 0) ∧
    S10.time_until_next_shot = E10.shoot_cooldown ∧
    S10.projectiles.length = E10.projectiles.length := by
  have hg : (T0.pos - E10.pos).magnitude_squared < ENEMY_SHOOT_RANGE ^ 2 ∧
      E10.time_until_next_shot - 1 ≤ 0 := by
    norm_num [T0, E10, ShipAtOrigin, Vec2.magnitude_squared, ENEMY_SHOOT_RANGE]
  have ha : E10.ammo ≤ 0 := by norm_num [E10, ShipAtOrigin]
  exact ⟨⟨rfl, hg, ha⟩,
    c10_counter_reset E10 1 R7 T0 S10 rfl stepE10 hg (Or.inr ha)⟩

end Adventure
